import Mathlib

/-!
Verification of `src/code/math3.py` (BetterPython repository).

The script is:

  from math import *
  from numpy import *
  from cmath import *

  inf = float("inf")
  for fn, num in zip([sqrt, ceil, isfinite], [-1, 4.5, inf * 1j]):
      try:
          print(f"{fn.__name__}({num}) -> {fn(num)}")
      except Exception as err:
          print(err)

We give a shallow embedding: numeric values are modelled exactly (IEEE
doubles are modelled as extended rationals, faithful because every value
arising in this program — -1, 4.5, 5.0, 0, 1, inf, nan — is exactly
representable and every operation performed on them is exact in double
precision), the three wildcard imports are modelled as successive
overlays of name environments, and each library function that one of the
names `sqrt`, `ceil`, `isfinite` can resolve to is modelled with the
semantics CPython / NumPy / cmath give it on such values.
-/

namespace Math3

/-- Fuel-driven Euclidean gcd. Structurally recursive so that it reduces
in the kernel (the library gcd is well-founded and does not). With fuel
greater than the first argument it computes the ordinary gcd. -/
def gcdF : ℕ → ℕ → ℕ → ℕ
  | 0, _, y => y
  | _ + 1, 0, y => y
  | f + 1, x + 1, y => gcdF f (y % (x + 1)) (x + 1)

/-- Gcd with enough fuel for any pair of arguments. -/
def ngcd (x y : ℕ) : ℕ := gcdF (x + 1) x y

/-- Exact rational numbers: numerator and positive denominator.
Values are kept in lowest terms by `PyRat.norm`, so that structural
equality is rational equality for the values the program builds. -/
structure PyRat where
  num : ℤ
  den : ℕ
deriving DecidableEq

/-- Reduce a fraction to lowest terms. -/
def PyRat.norm (q : PyRat) : PyRat :=
  let g := ngcd q.num.natAbs q.den
  if g = 0 then ⟨0, 1⟩ else ⟨q.num / (g : ℤ), q.den / g⟩

def PyRat.ofInt (n : ℤ) : PyRat := ⟨n, 1⟩

def PyRat.mul (a b : PyRat) : PyRat := PyRat.norm ⟨a.num * b.num, a.den * b.den⟩

def PyRat.add (a b : PyRat) : PyRat :=
  PyRat.norm ⟨a.num * (b.den : ℤ) + b.num * (a.den : ℤ), a.den * b.den⟩

def PyRat.neg (a : PyRat) : PyRat := ⟨-a.num, a.den⟩

def PyRat.sub (a b : PyRat) : PyRat := a.add b.neg

/-- Strictly negative test (denominators are positive). -/
def PyRat.isNeg (a : PyRat) : Bool := a.num < 0

/-- Strictly positive test. -/
def PyRat.isPos (a : PyRat) : Bool := 0 < a.num

/-- Ceiling of a rational as an integer: for a positive denominator d,
ceil(n/d) = floor((n + d - 1)/d). -/
def PyRat.ceil (q : PyRat) : ℤ := Int.fdiv (q.num + (q.den : ℤ) - 1) (q.den : ℤ)

/-- Exact integer square root, if one exists (arguments are tiny here,
so a bounded search keeps the definition structural). -/
def sqrtExact? (n : ℕ) : Option ℕ := (List.range (n + 1)).find? (fun k => k * k == n)

/-- IEEE double values, modelled exactly: a finite value is an exact
rational; besides there are the two infinities and nan. Negative zero is
not modelled (it never arises in math3.py). -/
inductive EFloat where
  | finite (q : PyRat)
  | inf
  | neginf
  | nan
deriving DecidableEq

/-- IEEE negation. -/
def EFloat.neg : EFloat → EFloat
  | .finite q => .finite q.neg
  | .inf => .neginf
  | .neginf => .inf
  | .nan => .nan

/-- IEEE addition on the modelled values (exact on finite values; the
finite sums arising in math3.py are exact in double precision). -/
def EFloat.add : EFloat → EFloat → EFloat
  | .nan, _ => .nan
  | _, .nan => .nan
  | .inf, .neginf => .nan
  | .neginf, .inf => .nan
  | .inf, _ => .inf
  | _, .inf => .inf
  | .neginf, _ => .neginf
  | _, .neginf => .neginf
  | .finite a, .finite b => .finite (a.add b)

def EFloat.sub (a b : EFloat) : EFloat := a.add b.neg

/-- IEEE multiplication on the modelled values; in particular
inf * 0 = nan. -/
def EFloat.mul : EFloat → EFloat → EFloat
  | .nan, _ => .nan
  | _, .nan => .nan
  | .finite a, .finite b => .finite (a.mul b)
  | .inf, .finite b => if b.isPos then .inf else if b.isNeg then .neginf else .nan
  | .finite a, .inf => if a.isPos then .inf else if a.isNeg then .neginf else .nan
  | .neginf, .finite b => if b.isPos then .neginf else if b.isNeg then .inf else .nan
  | .finite a, .neginf => if a.isPos then .neginf else if a.isNeg then .inf else .nan
  | .inf, .inf => .inf
  | .inf, .neginf => .neginf
  | .neginf, .inf => .neginf
  | .neginf, .neginf => .inf

/-- Finiteness of a double: true exactly on finite values. -/
def EFloat.isFiniteB : EFloat → Bool
  | .finite _ => true
  | _ => false

/-- True on negative values (used for the sign CPython prints before the
imaginary part of a complex number). -/
def EFloat.isNegB : EFloat → Bool
  | .finite q => q.isNeg
  | .neginf => true
  | _ => false

/-- Square root of a nonnegative finite double, exact when the result is
exactly representable (the only case math3.py reaches); inexact results
are collapsed to nan, a documented approximation on paths no claim
touches. -/
def PyRat.sqrtE (q : PyRat) : EFloat :=
  match sqrtExact? q.num.natAbs, sqrtExact? q.den with
  | some rn, some rd => .finite (PyRat.norm ⟨(rn : ℤ), rd⟩)
  | _, _ => .nan

/-- Python runtime values that math3.py manipulates. -/
inductive PyVal where
  | int (n : ℤ)
  | float (x : EFloat)
  | complex (re im : EFloat)
  | bool (b : Bool)
deriving DecidableEq

deriving instance DecidableEq for Except

/-- Conversion of a Python number to a real double, as the real-only
math-module functions perform it; complex values are rejected. -/
def PyVal.toReal? : PyVal → Option EFloat
  | .int n => some (.finite (PyRat.ofInt n))
  | .float x => some x
  | .bool b => some (.finite (PyRat.ofInt (if b then 1 else 0)))
  | .complex _ _ => none

/-- Promotion of any Python number to a complex pair (re, im), as
CPython performs it for complex arithmetic and for cmath functions. -/
def PyVal.toComplex : PyVal → EFloat × EFloat
  | .int n => (.finite (PyRat.ofInt n), .finite (PyRat.ofInt 0))
  | .float x => (x, .finite (PyRat.ofInt 0))
  | .bool b => (.finite (PyRat.ofInt (if b then 1 else 0)), .finite (PyRat.ofInt 0))
  | .complex re im => (re, im)

def PyVal.isComplexB : PyVal → Bool
  | .complex _ _ => true
  | _ => false

def PyVal.isFloatB : PyVal → Bool
  | .float _ => true
  | _ => false

def PyVal.toIntVal : PyVal → ℤ
  | .int n => n
  | .bool b => if b then 1 else 0
  | _ => 0

/-- CPython complex product (Objects/complexobject.c, _Py_c_prod):
componentwise naive formula, with IEEE semantics on each component. -/
def complexMul (x y : EFloat × EFloat) : EFloat × EFloat :=
  ((x.1.mul y.1).sub (x.2.mul y.2), (x.1.mul y.2).add (x.2.mul y.1))

/-- Python multiplication on numbers: complex wins over float wins over
int, exactly as CPython promotes. -/
def pyMul (x y : PyVal) : PyVal :=
  if x.isComplexB || y.isComplexB then
    let p := complexMul x.toComplex y.toComplex
    .complex p.1 p.2
  else if x.isFloatB || y.isFloatB then
    .float ((x.toComplex).1.mul (y.toComplex).1)
  else
    .int (x.toIntVal * y.toIntVal)

/-- Decimal digits of the fractional part r/d by long division
(fuel-bounded; every float the program prints needs one digit). -/
def fracStr (d : ℕ) : ℕ → ℕ → String
  | 0, _ => ""
  | fuel + 1, r =>
    if r = 0 then ""
    else toString (r * 10 / d) ++ fracStr d fuel (r * 10 % d)

/-- Signed integer part and fractional digits of a rational. -/
def fmtRatDigits (q : PyRat) : String × String :=
  let s := if q.isNeg then "-" else ""
  let n := q.num.natAbs
  (s ++ toString (n / q.den), fracStr q.den 17 (n % q.den))

/-- CPython str() of a finite double: integer part, a dot, and the
fractional digits (".0" when the value is integral). Faithful for every
double whose shortest repr is its exact decimal expansion, which covers
all values in math3.py. -/
def fmtFloatFinite (q : PyRat) : String :=
  let p := fmtRatDigits q
  p.1 ++ "." ++ (if p.2 = "" then "0" else p.2)

/-- CPython str() of a double. -/
def fmtFloat : EFloat → String
  | .finite q => fmtFloatFinite q
  | .inf => "inf"
  | .neginf => "-inf"
  | .nan => "nan"

/-- CPython formats the components of a complex number without the
trailing ".0" used for stand-alone floats (repr code without the
add-dot-zero flag). -/
def fmtNoDot : EFloat → String
  | .finite q =>
    let p := fmtRatDigits q
    p.1 ++ (if p.2 = "" then "" else "." ++ p.2)
  | .inf => "inf"
  | .neginf => "-inf"
  | .nan => "nan"

/-- CPython str() of a complex number: a bare imaginary part when the
real part is (positive) zero, otherwise a parenthesised sum with an
explicit sign before the imaginary part. -/
def fmtComplex (re im : EFloat) : String :=
  if re = EFloat.finite (PyRat.ofInt 0) then fmtNoDot im ++ "j"
  else "(" ++ fmtNoDot re ++ (if im.isNegB then "" else "+") ++ fmtNoDot im ++ "j)"

/-- Python str() of the values math3.py prints. -/
def pyStr : PyVal → String
  | .int n => toString n
  | .float x => fmtFloat x
  | .complex re im => fmtComplex re im
  | .bool b => if b then "True" else "False"

/-- Principal complex square root, on finite arguments; the C99 csqrt
special cases for nonfinite components are collapsed to nan + nan*j
(math3.py only ever takes the square root of the integer -1). -/
def complexSqrt (a b : EFloat) : EFloat × EFloat :=
  match a, b with
  | .finite x, .finite y =>
    if y = PyRat.ofInt 0 then
      if x.isNeg then (.finite (PyRat.ofInt 0), x.neg.sqrtE)
      else (x.sqrtE, .finite (PyRat.ofInt 0))
    else
      match (x.mul x |>.add (y.mul y)).sqrtE with
      | .finite m =>
        ((m.add x).mul ⟨1, 2⟩ |>.sqrtE,
          if y.isNeg then ((m.sub x).mul ⟨1, 2⟩ |>.sqrtE).neg
          else (m.sub x).mul ⟨1, 2⟩ |>.sqrtE)
      | _ => (.nan, .nan)
  | _, _ => (.nan, .nan)

/-- The library functions a wildcard import can bind the three names
`sqrt`, `ceil`, `isfinite` of math3.py to (cmath has no ceil). -/
inductive PyFunc where
  | mathSqrt
  | mathCeil
  | mathIsfinite
  | numpySqrt
  | numpyCeil
  | numpyIsfinite
  | cmathSqrt
  | cmathIsfinite
deriving DecidableEq

/-- The `__name__` attribute the f-string interpolates. -/
def PyFunc.fname : PyFunc → String
  | .mathSqrt | .numpySqrt | .cmathSqrt => "sqrt"
  | .mathCeil | .numpyCeil => "ceil"
  | .mathIsfinite | .numpyIsfinite | .cmathIsfinite => "isfinite"

/-- Semantics of each candidate function on the modelled values:
an `Except.error` is a raised Python exception carrying str(err).
math-module functions are real-only and raise TypeError on complex
input; numpy's sqrt returns nan on negative reals (it warns, it does
not raise); cmath's functions promote every number to complex. -/
def call : PyFunc → PyVal → Except String PyVal
  | .mathSqrt, v =>
    match v.toReal? with
    | some (.finite q) =>
      if q.isNeg then .error "math domain error" else .ok (.float q.sqrtE)
    | some .inf => .ok (.float .inf)
    | some .neginf => .error "math domain error"
    | some .nan => .ok (.float .nan)
    | none => .error "must be real number, not complex"
  | .mathCeil, v =>
    match v.toReal? with
    | some (.finite q) => .ok (.int q.ceil)
    | some .inf | some .neginf => .error "cannot convert float infinity to integer"
    | some .nan => .error "cannot convert float NaN to integer"
    | none => .error "must be real number, not complex"
  | .mathIsfinite, v =>
    match v.toReal? with
    | some x => .ok (.bool x.isFiniteB)
    | none => .error "must be real number, not complex"
  | .numpySqrt, v =>
    match v.toReal? with
    | some (.finite q) => .ok (.float (if q.isNeg then .nan else q.sqrtE))
    | some .inf => .ok (.float .inf)
    | some .neginf => .ok (.float .nan)
    | some .nan => .ok (.float .nan)
    | none =>
      let r := complexSqrt v.toComplex.1 v.toComplex.2
      .ok (.complex r.1 r.2)
  | .numpyCeil, v =>
    match v.toReal? with
    | some (.finite q) => .ok (.float (.finite (PyRat.ofInt q.ceil)))
    | some x => .ok (.float x)
    | none => .error "ufunc ceil not supported for the input types"
  | .numpyIsfinite, v =>
    let z := v.toComplex
    .ok (.bool (z.1.isFiniteB && z.2.isFiniteB))
  | .cmathSqrt, v =>
    let z := v.toComplex
    let r := complexSqrt z.1 z.2
    .ok (.complex r.1 r.2)
  | .cmathIsfinite, v =>
    let z := v.toComplex
    .ok (.bool (z.1.isFiniteB && z.2.isFiniteB))

/-- A name environment: later bindings (front of the list) shadow
earlier ones. -/
abbrev Env := List (String × PyFunc)

/-- Name lookup. -/
def resolve (e : Env) (name : String) : Option PyFunc :=
  (e.find? (fun p => p.1 == name)).map Prod.snd

/-- The bindings `from math import *` contributes to the three names
math3.py later looks up. -/
def mathExports : Env :=
  [("sqrt", .mathSqrt), ("ceil", .mathCeil), ("isfinite", .mathIsfinite)]

/-- The bindings `from numpy import *` contributes to those names. -/
def numpyExports : Env :=
  [("sqrt", .numpySqrt), ("ceil", .numpyCeil), ("isfinite", .numpyIsfinite)]

/-- The bindings `from cmath import *` contributes: cmath exports sqrt
and isfinite but has no ceil. -/
def cmathExports : Env :=
  [("sqrt", .cmathSqrt), ("isfinite", .cmathIsfinite)]

/-- A wildcard import overlays the imported module's names over the
current environment. -/
def starImport (base new : Env) : Env := new ++ base

/-- Environment after line 1, `from math import *`. -/
def envMath : Env := starImport [] mathExports

/-- Environment after line 2, `from numpy import *`. -/
def envNumpy : Env := starImport envMath numpyExports

/-- Environment after line 3, `from cmath import *`: the environment the
loop's name lookups run in. -/
def envCmath : Env := starImport envNumpy cmathExports

/-- Line 5: `inf = float("inf")`. -/
def inf : EFloat := .inf

/-- The list literal `[sqrt, ceil, isfinite]`, as names to resolve. -/
def fnNames : List String := ["sqrt", "ceil", "isfinite"]

/-- The list literal `[-1, 4.5, inf * 1j]`: an int, a float, and the
product of the float inf with the complex literal 1j. -/
def nums : List PyVal :=
  [.int (-1), .float (.finite ⟨9, 2⟩),
    pyMul (.float inf) (.complex (.finite (PyRat.ofInt 0)) (.finite (PyRat.ofInt 1)))]

/-- One iteration of the loop body: the try block prints the f-string
on success; the except block prints str(err). -/
def lineFor (fn : PyFunc) (num : PyVal) : String :=
  match call fn num with
  | .ok v => fn.fname ++ "(" ++ pyStr num ++ ") -> " ++ pyStr v
  | .error e => e

/-- The whole program: resolve the three names (a failed lookup would be
an uncaught NameError, modelled as `none`), zip with the inputs, and
emit one printed line per pair. `some lines` is a successful exit with
exactly those lines on stdout, in order. -/
def runProgram : Option (List String) :=
  (fnNames.mapM (resolve envCmath)).map
    (fun fns => (fns.zip nums).map (fun p => lineFor p.1 p.2))

/-- The printed lines of the (successful) run. -/
def progLines : List String := runProgram.getD []

/-- The (function, input) pairs the loop actually iterates over. -/
def progPairs : List (PyFunc × PyVal) :=
  ((fnNames.mapM (resolve envCmath)).getD []).zip nums

/-- Whether an invocation returns without raising. -/
def callOk (fn : PyFunc) (num : PyVal) : Bool :=
  match call fn num with
  | .ok _ => true
  | .error _ => false

/-- The success-format line of a pair, or `none` if the invocation
raises. -/
def successLineOf (fn : PyFunc) (num : PyVal) : Option String :=
  match call fn num with
  | .ok v => some (fn.fname ++ "(" ++ pyStr num ++ ") -> " ++ pyStr v)
  | .error _ => none

/-- Claim C1, counterexample: the square-root invocation on -1 does not
raise — the name `sqrt` resolves to cmath's sqrt, the call returns the
complex value 1j, and the first printed line is the success line
`sqrt(-1) -> 1j`, not an error message. -/
theorem sqrt_neg_one_no_error_cex :
    resolve envCmath "sqrt" = some PyFunc.cmathSqrt
    ∧ call PyFunc.cmathSqrt (PyVal.int (-1))
        = Except.ok (PyVal.complex (EFloat.finite (PyRat.ofInt 0))
            (EFloat.finite (PyRat.ofInt 1)))
    ∧ progLines.get? 0 = some "sqrt(-1) -> 1j" := by
  refine ⟨by decide, by decide, by decide⟩

/-- Claim C1, amended: for the first pair the square-root function
actually invoked (cmath's, after shadowing) applied to -1 succeeds with
the complex result 1j, no error is raised or caught, and the program
prints `sqrt(-1) -> 1j` for that pair. -/
theorem sqrt_pair_succeeds :
    progLines.get? 0 = some "sqrt(-1) -> 1j"
    ∧ callOk PyFunc.cmathSqrt (PyVal.int (-1)) = true
    ∧ resolve envCmath "sqrt" = some PyFunc.cmathSqrt := by
  refine ⟨by decide, by decide, by decide⟩

/-- Claim C2, counterexample: the second printed line is
`ceil(4.5) -> 5.0`, not `ceil(4.5) -> 5` — the ceiling invoked is
numpy's, which returns the float 5.0 rather than the integer 5. -/
theorem ceil_line_not_int_cex :
    progLines.get? 1 = some "ceil(4.5) -> 5.0"
    ∧ progLines.get? 1 ≠ some "ceil(4.5) -> 5"
    ∧ call PyFunc.numpyCeil (PyVal.float (EFloat.finite ⟨9, 2⟩))
        = Except.ok (PyVal.float (EFloat.finite (PyRat.ofInt 5))) := by
  refine ⟨by decide, by decide, by decide⟩

/-- Claim C2, amended: for the second pair the ceiling function actually
invoked is numpy's (cmath has no ceil, so the numpy binding survives);
applied to 4.5 it succeeds with the floating-point result 5.0, and the
program prints exactly `ceil(4.5) -> 5.0`. -/
theorem ceil_pair_float_result :
    resolve envCmath "ceil" = some PyFunc.numpyCeil
    ∧ call PyFunc.numpyCeil (PyVal.float (EFloat.finite ⟨9, 2⟩))
        = Except.ok (PyVal.float (EFloat.finite (PyRat.ofInt 5)))
    ∧ progLines.get? 1 = some "ceil(4.5) -> 5.0" := by
  refine ⟨by decide, by decide, by decide⟩

/-- Claim C3, counterexample: the finiteness-check invocation on the
complex value inf * 1j does not raise — `isfinite` resolves to cmath's
isfinite, which accepts complex input and returns False, and the third
printed line is the success line `isfinite((nan+infj)) -> False`, not an
error message. -/
theorem isfinite_no_error_cex :
    call PyFunc.cmathIsfinite (PyVal.complex EFloat.nan EFloat.inf)
        = Except.ok (PyVal.bool false)
    ∧ progLines.get? 2 = some "isfinite((nan+infj)) -> False" := by
  refine ⟨by decide, by decide⟩

/-- Claim C3, amended: for the third pair the finiteness-check actually
invoked is cmath's, which accepts complex input; applied to inf * 1j
(the complex value nan + inf*j) it succeeds returning False, and the
program prints `isfinite((nan+infj)) -> False` for that pair. -/
theorem isfinite_pair_succeeds :
    resolve envCmath "isfinite" = some PyFunc.cmathIsfinite
    ∧ nums.get? 2 = some (PyVal.complex EFloat.nan EFloat.inf)
    ∧ call PyFunc.cmathIsfinite (PyVal.complex EFloat.nan EFloat.inf)
        = Except.ok (PyVal.bool false)
    ∧ progLines.get? 2 = some "isfinite((nan+infj)) -> False" := by
  refine ⟨by decide, by decide, by decide, by decide⟩

/-- Claim C4: the program produces exactly three output lines, one per
(function, input) pair, in the original pairing order (square-root
first, ceiling second, finiteness-check third). -/
theorem three_lines_in_order :
    runProgram
      = some ["sqrt(-1) -> 1j", "ceil(4.5) -> 5.0", "isfinite((nan+infj)) -> False"]
    ∧ progLines.length = 3 := by
  refine ⟨by decide, by decide⟩

/-- Claim C5: any error raised by a function invocation is caught at the
point of invocation and converted to the printed message str(err), and
the run completes successfully (no error propagates out). -/
theorem errors_caught_locally :
    (∀ (fn : PyFunc) (num : PyVal) (e : String),
        call fn num = Except.error e → lineFor fn num = e)
    ∧ runProgram.isSome = true := by
  constructor
  · intro fn num e h
    unfold lineFor
    rw [h]
  · decide

/-- Witness for C5: math's real sqrt applied to -1 raises the domain
error, and the loop body converts exactly that message to the printed
line; the program itself still exits successfully. -/
theorem errors_caught_locally_witness :
    lineFor PyFunc.mathSqrt (PyVal.int (-1)) = "math domain error"
    ∧ runProgram.isSome = true :=
  ⟨errors_caught_locally.1 PyFunc.mathSqrt (PyVal.int (-1)) "math domain error" rfl,
    errors_caught_locally.2⟩

/-- Claim C6: the program is deterministic — it takes no input, so any
two runs produce the same standard-output text. -/
theorem deterministic_output :
    ∀ r₁ r₂ : Option (List String), r₁ = runProgram → r₂ = runProgram → r₁ = r₂ := by
  intro r₁ r₂ h₁ h₂
  rw [h₁, h₂]

/-- Witness for C6: instantiating both runs, the concrete output of one
run coincides with `runProgram`. -/
theorem deterministic_output_witness :
    (some ["sqrt(-1) -> 1j", "ceil(4.5) -> 5.0", "isfinite((nan+infj)) -> False"]
        : Option (List String))
      = runProgram :=
  deterministic_output
    (some ["sqrt(-1) -> 1j", "ceil(4.5) -> 5.0", "isfinite((nan+infj)) -> False"])
    runProgram (by decide) rfl

/-- Claim C7: whenever a pair's invocation succeeds with value v, the
printed line is exactly `name(input) -> result` built from the invoked
function's __name__, str(input) and str(v). -/
theorem success_line_format :
    ∀ (fn : PyFunc) (num : PyVal) (v : PyVal),
      call fn num = Except.ok v →
        lineFor fn num = fn.fname ++ "(" ++ pyStr num ++ ") -> " ++ pyStr v := by
  intro fn num v h
  unfold lineFor
  rw [h]

/-- Witness for C7: the ceiling pair succeeds with the float 5.0 and its
line has the success format. -/
theorem success_line_format_witness :
    lineFor PyFunc.numpyCeil (PyVal.float (EFloat.finite ⟨9, 2⟩))
      = PyFunc.fname PyFunc.numpyCeil ++ "("
          ++ pyStr (PyVal.float (EFloat.finite ⟨9, 2⟩)) ++ ") -> "
          ++ pyStr (PyVal.float (EFloat.finite (PyRat.ofInt 5))) :=
  success_line_format PyFunc.numpyCeil (PyVal.float (EFloat.finite ⟨9, 2⟩))
    (PyVal.float (EFloat.finite (PyRat.ofInt 5))) rfl

/-- Claim C8: none of the three invocations the loop performs raises, so
the except branch is never taken and every printed line has the success
format `name(input) -> result`. -/
theorem no_invocation_raises :
    progPairs.all (fun p => callOk p.1 p.2) = true
    ∧ progPairs.mapM (fun p => successLineOf p.1 p.2) = runProgram
    ∧ runProgram
        = some ["sqrt(-1) -> 1j", "ceil(4.5) -> 5.0", "isfinite((nan+infj)) -> False"] := by
  refine ⟨by decide, by decide, by decide⟩

/-- Claim C9: after `from math import *`, `sqrt` is math's; after
`from numpy import *` it is numpy's; after the final
`from cmath import *` it is cmath's complex sqrt, and that function
applied to -1 returns the complex value 1j (printed "1j") instead of
raising. -/
theorem cmath_sqrt_shadows :
    resolve envMath "sqrt" = some PyFunc.mathSqrt
    ∧ resolve envNumpy "sqrt" = some PyFunc.numpySqrt
    ∧ resolve envCmath "sqrt" = some PyFunc.cmathSqrt
    ∧ call PyFunc.cmathSqrt (PyVal.int (-1))
        = Except.ok (PyVal.complex (EFloat.finite (PyRat.ofInt 0))
            (EFloat.finite (PyRat.ofInt 1)))
    ∧ pyStr (PyVal.complex (EFloat.finite (PyRat.ofInt 0))
        (EFloat.finite (PyRat.ofInt 1))) = "1j" := by
  refine ⟨by decide, by decide, by decide, by decide, by decide⟩

/-- Claim C10: the third input float("inf") * 1j is the complex value
with nan real part and inf imaginary part, and the finiteness-check
actually resolved (cmath's) applied to it returns False without
raising. -/
theorem inf_times_1j_nan_inf :
    pyMul (PyVal.float inf)
        (PyVal.complex (EFloat.finite (PyRat.ofInt 0)) (EFloat.finite (PyRat.ofInt 1)))
      = PyVal.complex EFloat.nan EFloat.inf
    ∧ nums.get? 2 = some (PyVal.complex EFloat.nan EFloat.inf)
    ∧ resolve envCmath "isfinite" = some PyFunc.cmathIsfinite
    ∧ call PyFunc.cmathIsfinite (PyVal.complex EFloat.nan EFloat.inf)
        = Except.ok (PyVal.bool false) := by
  refine ⟨by decide, by decide, by decide, by decide⟩

end Math3
